import Mathlib

/-!
Shallow embedding of the `deps` package (dependency.go): a graceful-shutdown
coordination tree.  A `Root` owns the fire-once abort signal (the `aborted`
channel), the fire-once abort-request signal (the `abortRequested` channel
closed through a `sync.Once`-guarded closure), the shared abort-context cell
(`abortCtx`, guarded by `rw sync.RWMutex`) and the root-level
`sync.WaitGroup` counter.  Each `Dependency` node holds shared references
into its Root plus its own WaitGroup counter, a memoized wait channel and a
`sync.Once`-guarded parent-notification closure.

Channels, locks and goroutines are embedded as explicit state plus an event
trace: closing a channel / storing the context / blocking on a receive or a
select each append an `Event`, so ordering claims become statements about
the trace.  The nondeterministic `select` in `Root.Abort` (ctx.Done versus
the wait channel) is resolved by an explicit oracle `ctxDoneFirst` saying
which case fired first.  Wait channels are identified by allocation ids
handed out by a counter threaded through the operations, so that
memoization ("same underlying channel, no redundant machinery") is a
provable identity of ids and of the allocator state.
-/

namespace Deps

/-- `context.Context`'s error after `Done` fires: `context.Canceled` or
`context.DeadlineExceeded`. -/
inductive CtxErr where
  | canceled
  | deadlineExceeded
deriving DecidableEq

/-- A cancellation token (`context.Context`): an identity, an optional
deadline, and the value `ctx.Err()` reports once `Done` has fired. -/
structure Ctx where
  id : Nat
  deadline : Option Nat
  errWhenDone : CtxErr
deriving DecidableEq

/-- The error values `Root.Abort` can return: `errors.New("already aborted")`,
or `fmt.Errorf("failed to wait all dependents to stop: %w", ctx.Err())`
which wraps the token's own cancellation cause. -/
inductive GoError where
  | alreadyAborted
  | timeout (cause : CtxErr)
deriving DecidableEq

/-- Observable effects of the operations, in program order. -/
inductive Event where
  /-- `close(r.aborted)` — the AbortSignal fires. -/
  | fireAborted
  /-- `r.abortCtx = ctx` under `r.rw.Lock()` — the AbortContext cell is written. -/
  | storeAbortCtx (c : Ctx)
  /-- `Root.Abort` blocks on its `select` over `ctx.Done()` and `wait(&r.wg)`. -/
  | blockOnSelect
  /-- `close(r.abortRequested)` inside the once-guarded `requestAbort` closure. -/
  | fireAbortRequested
  /-- `<-d.Wait()` — the node blocks until its own children have finished. -/
  | recvOwnWait
  /-- `wg.Done()` on the parent's counter inside the once-guarded `stop` closure. -/
  | notifyParent
deriving DecidableEq

/-- State of a `Root`: the two channels (closed or not), the abort-context
cell (`none` is Go's zero value before `Abort` writes it), and the
root-level WaitGroup counter. -/
structure RootState where
  abortRequested : Bool
  aborted : Bool
  abortCtx : Option Ctx
  counter : Nat
deriving DecidableEq

/-- Index of the abort-context cell owned by the root; `dependent` threads
the pointer `&r.abortCtx` unchanged to every descendant, so every node's
`cellRef` is expected to equal this index. -/
def rootCell : Nat := 0

/-- State of a `Dependency` node: the reference to the shared abort-context
cell, the consumed-flag of the `sync.Once` around `wg.Done` (the `stop`
closure), the memoized wait-channel id (`nil` before the first `Wait`),
and the node's own WaitGroup counter. -/
structure Node where
  cellRef : Nat
  stopped : Bool
  waitCh : Option Nat
  counter : Nat
deriving DecidableEq

/-- `New()`: fresh Root, both channels open, context cell at its zero
value, WaitGroup at zero. -/
def Root.New : RootState :=
  { abortRequested := false, aborted := false, abortCtx := none, counter := 0 }

/-- `(*Root).Aborted()`: whether the `aborted` channel is closed. -/
def Root.Aborted (s : RootState) : Bool := s.aborted

/-- `(*Root).AbortRequested()`: whether the `abortRequested` channel is closed. -/
def Root.AbortRequested (s : RootState) : Bool := s.abortRequested

/-- The `requestAbort` closure built in `New`: `once.Do(func() { close(r) })`.
Closes the abort-request channel the first time, no-ops afterwards. -/
def Root.requestAbort (s : RootState) : RootState × List Event :=
  if s.abortRequested then (s, [])
  else ({ s with abortRequested := true }, [Event.fireAbortRequested])

/-- Result of `Root.Abort`: the returned error (or `none` for success),
the Root's state afterwards, and the trace of effects in program order. -/
structure AbortOutcome where
  err : Option GoError
  root : RootState
  trace : List Event
deriving DecidableEq

/-- `(*Root).Abort(ctx)`:

```
select { case <-r.Aborted(): return errors.New("already aborted"); default: }
close(r.aborted)
r.rw.Lock(); r.abortCtx = ctx; r.rw.Unlock()
select {
case <-ctx.Done():  return fmt.Errorf("...: %w", ctx.Err())
case <-wait(&r.wg): return nil
}
```

`ctxDoneFirst` is the oracle resolving the final `select`: `true` means
`ctx.Done()` fired before the root's wait channel, `false` means the
WaitGroup reached zero first. -/
def Root.Abort (s : RootState) (ctx : Ctx) (ctxDoneFirst : Bool) : AbortOutcome :=
  if Root.Aborted s then
    { err := some GoError.alreadyAborted, root := s, trace := [] }
  else
    let s1 : RootState := { s with aborted := true }
    let s2 : RootState := { s1 with abortCtx := some ctx }
    { err := if ctxDoneFirst then some (GoError.timeout ctx.errWhenDone) else none,
      root := s2,
      trace := [Event.fireAborted, Event.storeAbortCtx ctx, Event.blockOnSelect] }

/-- The body of `dependent(...)` shared by `(*Root).Dependent` and
`(*Dependency).Dependent`: `wg.Add(1)` on the parent's counter and a fresh
node whose `stop` once-flag is unconsumed, whose wait channel is the nil
zero value, and whose cell reference is the parent's. -/
def mkDependent (cellRef : Nat) : Node :=
  { cellRef := cellRef, stopped := false, waitCh := none, counter := 0 }

/-- `(*Root).Dependent()`: increments the Root's counter and returns the
child node wired to the Root's abort-context cell. -/
def Root.Dependent (s : RootState) : RootState × Node :=
  ({ s with counter := s.counter + 1 }, mkDependent rootCell)

/-- `(*Dependency).Dependent()`: increments this node's own counter and
returns a child node sharing the same cell reference. -/
def Dependency.Dependent (nd : Node) : Node × Node :=
  ({ nd with counter := nd.counter + 1 }, mkDependent nd.cellRef)

/-- `(*Dependency).AbortContext()`: reads, under `rw.RLock()`, the cell the
node's `abortCtx` pointer targets.  The only cell in a one-root world is
the root's own, at index `rootCell`. -/
def Dependency.AbortContext (root : RootState) (nd : Node) : Option Ctx :=
  if nd.cellRef = rootCell then root.abortCtx else none

/-- Result of `(*Dependency).Wait()`: the id of the returned channel, the
node afterwards, and the allocator counter afterwards. -/
structure WaitResult where
  ch : Nat
  node : Node
  nextId : Nat
deriving DecidableEq

/-- `(*Dependency).Wait()`: under `d.m`, build `wait(&d.wg)` on first use
and memoize it; later calls return the same channel.  `k` is the id the
allocator would give a newly created channel. -/
def Dependency.Wait (nd : Node) (k : Nat) : WaitResult :=
  match nd.waitCh with
  | some ch => { ch := ch, node := nd, nextId := k }
  | none => { ch := k, node := { nd with waitCh := some k }, nextId := k + 1 }

/-- Whether the wait channel of a node has fired: `wait(&d.wg)` closes its
channel exactly when the node's own counter reaches zero. -/
def Node.waitFired (nd : Node) : Bool := nd.counter = 0

/-- The Go condition `abortOnError != nil && *abortOnError != nil`.
`none` is a nil `*error`; `some none` a pointer to a nil error; and
`some (some e)` a pointer to the non-nil error `e` (errors are
identified by a number). -/
def shouldRequest : Option (Option Nat) → Bool
  | some (some _) => true
  | _ => false

/-- Result of `Stop` / `StopImmediately`: Root state, node state, the
parent's counter, the wait-channel allocator, and the trace of effects. -/
structure StopResult where
  root : RootState
  node : Node
  parent : Nat
  nextId : Nat
  trace : List Event
deriving DecidableEq

/-- The `stop` closure built in `dependent`: `once.Do(wg.Done)` on the
parent's counter — decrements exactly on first use. -/
def notifyOnce (nd : Node) (parent : Nat) : Node × Nat × List Event :=
  if nd.stopped then (nd, parent, [])
  else ({ nd with stopped := true }, parent - 1, [Event.notifyParent])

/-- `(*Dependency).Stop(abortOnError)`:

```
if abortOnError != nil && *abortOnError != nil { d.requestAbort() }
<-d.Wait()
d.stop()
```

`parent` is the value of the parent's WaitGroup counter. -/
def Dependency.Stop (root : RootState) (nd : Node) (parent : Nat)
    (abortOnError : Option (Option Nat)) (k : Nat) : StopResult :=
  let req := if shouldRequest abortOnError then Root.requestAbort root else (root, [])
  let w := Dependency.Wait nd k
  let fin := notifyOnce w.node parent
  { root := req.1, node := fin.1, parent := fin.2.1, nextId := w.nextId,
    trace := req.2 ++ [Event.recvOwnWait] ++ fin.2.2 }

/-- `(*Dependency).StopImmediately(abortOnError)`: same abort-request
condition, then `d.stop()` at once — no `Wait`, no blocking, the
allocator is untouched. -/
def Dependency.StopImmediately (root : RootState) (nd : Node) (parent : Nat)
    (abortOnError : Option (Option Nat)) (k : Nat) : StopResult :=
  let req := if shouldRequest abortOnError then Root.requestAbort root else (root, [])
  let fin := notifyOnce nd parent
  { root := req.1, node := fin.1, parent := fin.2.1, nextId := k,
    trace := req.2 ++ fin.2.2 }

/-- Nodes reachable from a Root by a chain of `Dependent()` calls, at any
depth: direct children of the Root, and children of such nodes. -/
inductive DescendantOfRoot : Node → Prop where
  | root_child (s : RootState) : DescendantOfRoot (Root.Dependent s).2
  | node_child (nd : Node) : DescendantOfRoot nd →
      DescendantOfRoot (Dependency.Dependent nd).2

/-- Recognizer for the context-store event. -/
def isStoreEvent : Event → Bool
  | Event.storeAbortCtx _ => true
  | _ => false

/-- Recognizer for the abort-signal-fire event. -/
def isFireAbortedEvent : Event → Bool
  | Event.fireAborted => true
  | _ => false

/-- Recognizer for the parent-notification event. -/
def isNotifyEvent : Event → Bool
  | Event.notifyParent => true
  | _ => false

/-- Recognizer for the blocking receive on the node's own wait channel. -/
def isRecvOwnWaitEvent : Event → Bool
  | Event.recvOwnWait => true
  | _ => false

/-- Index of the first event satisfying `p`, if any. -/
def firstIdx (p : Event → Bool) : List Event → Option Nat
  | [] => none
  | e :: tr => if p e then some 0 else (firstIdx p tr).map (fun i => i + 1)

/-- Whether a context-store event occurs strictly before an
abort-signal-fire event (the ordering the spec sentence asserts). -/
def storePrecedesFire (tr : List Event) : Bool :=
  match firstIdx isStoreEvent tr, firstIdx isFireAbortedEvent tr with
  | some i, some j => decide (i < j)
  | _, _ => false

/-- Whether the abort-signal-fire event occurs strictly before a
context-store event (the ordering the code implements). -/
def firePrecedesStore (tr : List Event) : Bool :=
  match firstIdx isFireAbortedEvent tr, firstIdx isStoreEvent tr with
  | some i, some j => decide (i < j)
  | _, _ => false

/-- How many parent-notification events a trace holds. -/
def countNotify (tr : List Event) : Nat := tr.countP isNotifyEvent

/-- A token with no deadline (like `context.Background()` wrapped by
`context.WithCancel`). -/
def ctx0 : Ctx := { id := 0, deadline := none, errWhenDone := CtxErr.canceled }

/-- A token with a one-minute deadline (60000 ms). -/
def ctx1 : Ctx := { id := 1, deadline := some 60000, errWhenDone := CtxErr.deadlineExceeded }

/-- A depth-1 descendant: direct child of a fresh Root. -/
def node_d1 : Node := (Root.Dependent Root.New).2

/-- A depth-2 descendant: child of `node_d1`. -/
def node_d2 : Node := (Dependency.Dependent node_d1).2

/-! ### Helper lemmas -/

theorem wait_node_stopped (nd : Node) (k : Nat) :
    (Dependency.Wait nd k).node.stopped = nd.stopped := by
  cases h : nd.waitCh <;> simp [Dependency.Wait, h]

theorem wait_node_counter (nd : Node) (k : Nat) :
    (Dependency.Wait nd k).node.counter = nd.counter := by
  cases h : nd.waitCh <;> simp [Dependency.Wait, h]

theorem notifyOnce_stopped (nd : Node) (parent : Nat) (h : nd.stopped = true) :
    notifyOnce nd parent = (nd, parent, []) := by
  simp [notifyOnce, h]

theorem stop_sets_stopped (root : RootState) (nd : Node) (parent : Nat)
    (a : Option (Option Nat)) (k : Nat) :
    (Dependency.Stop root nd parent a k).node.stopped = true := by
  by_cases h : (Dependency.Wait nd k).node.stopped <;>
    simp [Dependency.Stop, notifyOnce, h]

theorem stopImmediately_sets_stopped (root : RootState) (nd : Node) (parent : Nat)
    (a : Option (Option Nat)) (k : Nat) :
    (Dependency.StopImmediately root nd parent a k).node.stopped = true := by
  by_cases h : nd.stopped <;> simp [Dependency.StopImmediately, notifyOnce, h]

theorem stop_of_stopped (root : RootState) (nd : Node) (parent : Nat)
    (a : Option (Option Nat)) (k : Nat) (h : nd.stopped = true) :
    (Dependency.Stop root nd parent a k).parent = parent ∧
    countNotify (Dependency.Stop root nd parent a k).trace = 0 := by
  have hw : (Dependency.Wait nd k).node.stopped = true := by
    rw [wait_node_stopped]; exact h
  cases hr : shouldRequest a <;> by_cases hb : root.abortRequested <;>
    simp [Dependency.Stop, Root.requestAbort, notifyOnce, hw, hr, hb,
      countNotify, isNotifyEvent]

theorem stopImmediately_of_stopped (root : RootState) (nd : Node) (parent : Nat)
    (a : Option (Option Nat)) (k : Nat) (h : nd.stopped = true) :
    (Dependency.StopImmediately root nd parent a k).parent = parent ∧
    countNotify (Dependency.StopImmediately root nd parent a k).trace = 0 := by
  cases hr : shouldRequest a <;> by_cases hb : root.abortRequested <;>
    simp [Dependency.StopImmediately, Root.requestAbort, notifyOnce, h, hr, hb,
      countNotify, isNotifyEvent]

theorem descendant_cellRef (nd : Node) (h : DescendantOfRoot nd) :
    nd.cellRef = rootCell := by
  induction h with
  | root_child s => rfl
  | node_child nd h ih => simpa [Dependency.Dependent, mkDependent] using ih

/-! ### Claim theorems -/

/-- Claim C1, counterexample: on a fresh Root, `Abort` emits both a
context-store event and a signal-fire event, but the store does NOT
precede the fire — refuting "first stores the token, then fires the
AbortSignal". -/
theorem abort_store_before_fire_refuted :
    (Root.Abort Root.New ctx0 false).trace.any isStoreEvent = true ∧
    (Root.Abort Root.New ctx0 false).trace.any isFireAbortedEvent = true ∧
    storePrecedesFire (Root.Abort Root.New ctx0 false).trace = false := by
  decide

/-- Claim C1, amended: when the abort signal has not already fired,
`Root.Abort` first fires the AbortSignal (closes the `aborted` channel),
then stores the supplied token into the shared AbortContext cell under
the write lock, and only then blocks on the deadline/completion select —
in that order. -/
theorem abort_fires_signal_then_stores_context (s : RootState) (c : Ctx) (o : Bool)
    (h : s.aborted = false) :
    (Root.Abort s c o).trace =
      [Event.fireAborted, Event.storeAbortCtx c, Event.blockOnSelect] ∧
    firePrecedesStore (Root.Abort s c o).trace = true ∧
    (Root.Abort s c o).root.abortCtx = some c := by
  simp [Root.Abort, Root.Aborted, h, firePrecedesStore, firstIdx,
    isFireAbortedEvent, isStoreEvent]

/-- Witness for the amended C1 theorem at a fresh Root and the
no-deadline token. -/
theorem abort_fires_signal_then_stores_context_witness :
    Root.New.aborted = false ∧
    ((Root.Abort Root.New ctx0 false).trace =
      [Event.fireAborted, Event.storeAbortCtx ctx0, Event.blockOnSelect] ∧
    firePrecedesStore (Root.Abort Root.New ctx0 false).trace = true ∧
    (Root.Abort Root.New ctx0 false).root.abortCtx = some ctx0) :=
  ⟨rfl, abort_fires_signal_then_stores_context Root.New ctx0 false rfl⟩

/-- Claim C2: on a Root whose abort signal has already fired, `Abort`
returns the AlreadyAborted error at once — the trace is empty (no
blocking select, no fire, no store) and the Root's state (aborted
channel, AbortContext cell, counter) is unchanged. -/
theorem abort_second_call_already_aborted (s : RootState) (c : Ctx) (o : Bool)
    (h : s.aborted = true) :
    (Root.Abort s c o).err = some GoError.alreadyAborted ∧
    (Root.Abort s c o).root = s ∧
    (Root.Abort s c o).trace = [] := by
  simp [Root.Abort, Root.Aborted, h]

/-- Witness for C2: abort a fresh Root, then abort again. -/
theorem abort_second_call_already_aborted_witness :
    (Root.Abort Root.New ctx0 false).root.aborted = true ∧
    ((Root.Abort (Root.Abort Root.New ctx0 false).root ctx1 true).err =
       some GoError.alreadyAborted ∧
     (Root.Abort (Root.Abort Root.New ctx0 false).root ctx1 true).root =
       (Root.Abort Root.New ctx0 false).root ∧
     (Root.Abort (Root.Abort Root.New ctx0 false).root ctx1 true).trace = []) :=
  ⟨rfl, abort_second_call_already_aborted _ ctx1 true rfl⟩

/-- Claim C3: a first call to `Root.Abort` returns `nil` exactly when the
root's completion notification wins the select, and the Timeout error
wrapping the token's own cancellation cause exactly when the token's
deadline/cancellation fires first; no other outcome exists. -/
theorem abort_first_call_outcomes (s : RootState) (c : Ctx) (o : Bool)
    (h : s.aborted = false) :
    ((Root.Abort s c o).err = none ↔ o = false) ∧
    ((Root.Abort s c o).err = some (GoError.timeout c.errWhenDone) ↔ o = true) ∧
    ((Root.Abort s c o).err = none ∨
     (Root.Abort s c o).err = some (GoError.timeout c.errWhenDone)) := by
  cases o <;> simp [Root.Abort, Root.Aborted, h]

/-- Witness for C3: the deadline-first select outcome on a fresh Root. -/
theorem abort_first_call_outcomes_witness :
    Root.New.aborted = false ∧
    (((Root.Abort Root.New ctx1 true).err = none ↔ true = false) ∧
     ((Root.Abort Root.New ctx1 true).err =
        some (GoError.timeout ctx1.errWhenDone) ↔ true = true) ∧
     ((Root.Abort Root.New ctx1 true).err = none ∨
      (Root.Abort Root.New ctx1 true).err =
        some (GoError.timeout ctx1.errWhenDone))) :=
  ⟨rfl, abort_first_call_outcomes Root.New ctx1 true rfl⟩

/-- Claim C4: on a node whose stop-once flag is unconsumed, `Stop`
performs, in order: the abort-request trigger (exactly when the Go
condition on `abortOnError` holds and the request channel is still
open), then the blocking receive on the node's own `Wait` channel, then
a single parent notification; the parent's counter is decremented
exactly once. -/
theorem stop_order_request_wait_notify (root : RootState) (nd : Node) (parent : Nat)
    (a : Option (Option Nat)) (k : Nat) (h : nd.stopped = false) :
    (Dependency.Stop root nd parent a k).trace =
      (if shouldRequest a && !root.abortRequested
        then [Event.fireAbortRequested] else [])
        ++ [Event.recvOwnWait, Event.notifyParent] ∧
    (Dependency.Stop root nd parent a k).parent = parent - 1 ∧
    countNotify (Dependency.Stop root nd parent a k).trace = 1 := by
  have hw : (Dependency.Wait nd k).node.stopped = false := by
    rw [wait_node_stopped]; exact h
  cases hr : shouldRequest a <;> by_cases hb : root.abortRequested <;>
    simp [Dependency.Stop, Root.requestAbort, notifyOnce, hw, hr, hb,
      countNotify, isNotifyEvent]

/-- Witness for C4: a fresh depth-1 node stopping with a non-nil error
pointer against a fresh Root. -/
theorem stop_order_request_wait_notify_witness :
    node_d1.stopped = false ∧
    ((Dependency.Stop Root.New node_d1 1 (some (some 7)) 0).trace =
      (if shouldRequest (some (some 7)) && !Root.New.abortRequested
        then [Event.fireAbortRequested] else [])
        ++ [Event.recvOwnWait, Event.notifyParent] ∧
    (Dependency.Stop Root.New node_d1 1 (some (some 7)) 0).parent = 1 - 1 ∧
    countNotify (Dependency.Stop Root.New node_d1 1 (some (some 7)) 0).trace = 1) :=
  ⟨rfl, stop_order_request_wait_notify Root.New node_d1 1 (some (some 7)) 0 rfl⟩

/-- Claim C5: on a node whose stop-once flag is unconsumed,
`StopImmediately` triggers the abort request under the same condition as
`Stop` (identical resulting Root state), then notifies the parent at
once: no receive on the node's own wait channel appears in the trace,
and the parent's counter is decremented exactly once. -/
theorem stopImmediately_notifies_without_waiting (root : RootState) (nd : Node)
    (parent : Nat) (a : Option (Option Nat)) (k : Nat) (h : nd.stopped = false) :
    (Dependency.StopImmediately root nd parent a k).trace =
      (if shouldRequest a && !root.abortRequested
        then [Event.fireAbortRequested] else [])
        ++ [Event.notifyParent] ∧
    (Dependency.StopImmediately root nd parent a k).parent = parent - 1 ∧
    (Dependency.StopImmediately root nd parent a k).trace.countP
      isRecvOwnWaitEvent = 0 ∧
    (Dependency.StopImmediately root nd parent a k).root =
      (Dependency.Stop root nd parent a k).root := by
  cases hr : shouldRequest a <;> by_cases hb : root.abortRequested <;>
    simp [Dependency.StopImmediately, Dependency.Stop, Root.requestAbort,
      notifyOnce, h, hr, hb, isRecvOwnWaitEvent, isNotifyEvent]

/-- Witness for C5: a fresh depth-1 node stopping immediately with a
non-nil error pointer against a fresh Root. -/
theorem stopImmediately_notifies_without_waiting_witness :
    node_d1.stopped = false ∧
    ((Dependency.StopImmediately Root.New node_d1 1 (some (some 7)) 0).trace =
      (if shouldRequest (some (some 7)) && !Root.New.abortRequested
        then [Event.fireAbortRequested] else [])
        ++ [Event.notifyParent] ∧
    (Dependency.StopImmediately Root.New node_d1 1 (some (some 7)) 0).parent = 1 - 1 ∧
    (Dependency.StopImmediately Root.New node_d1 1 (some (some 7)) 0).trace.countP
      isRecvOwnWaitEvent = 0 ∧
    (Dependency.StopImmediately Root.New node_d1 1 (some (some 7)) 0).root =
      (Dependency.Stop Root.New node_d1 1 (some (some 7)) 0).root) :=
  ⟨rfl, stopImmediately_notifies_without_waiting Root.New node_d1 1 (some (some 7)) 0 rfl⟩

/-- Claim C6: after a node's stop method has run once (either variant),
running either stop method again leaves the parent's counter exactly
where the first call left it and emits no parent notification — the
counter is decremented at most once per child, so the parent's wait
fires at the correct count and never early. -/
theorem stop_second_call_no_double_decrement (root : RootState) (nd : Node)
    (parent : Nat) (a a2 : Option (Option Nat)) (k k2 : Nat) :
    ((Dependency.Stop
        (Dependency.Stop root nd parent a k).root
        (Dependency.Stop root nd parent a k).node
        (Dependency.Stop root nd parent a k).parent a2 k2).parent =
      (Dependency.Stop root nd parent a k).parent ∧
     countNotify (Dependency.Stop
        (Dependency.Stop root nd parent a k).root
        (Dependency.Stop root nd parent a k).node
        (Dependency.Stop root nd parent a k).parent a2 k2).trace = 0) ∧
    ((Dependency.StopImmediately
        (Dependency.Stop root nd parent a k).root
        (Dependency.Stop root nd parent a k).node
        (Dependency.Stop root nd parent a k).parent a2 k2).parent =
      (Dependency.Stop root nd parent a k).parent ∧
     countNotify (Dependency.StopImmediately
        (Dependency.Stop root nd parent a k).root
        (Dependency.Stop root nd parent a k).node
        (Dependency.Stop root nd parent a k).parent a2 k2).trace = 0) ∧
    ((Dependency.Stop
        (Dependency.StopImmediately root nd parent a k).root
        (Dependency.StopImmediately root nd parent a k).node
        (Dependency.StopImmediately root nd parent a k).parent a2 k2).parent =
      (Dependency.StopImmediately root nd parent a k).parent ∧
     countNotify (Dependency.Stop
        (Dependency.StopImmediately root nd parent a k).root
        (Dependency.StopImmediately root nd parent a k).node
        (Dependency.StopImmediately root nd parent a k).parent a2 k2).trace = 0) ∧
    ((Dependency.StopImmediately
        (Dependency.StopImmediately root nd parent a k).root
        (Dependency.StopImmediately root nd parent a k).node
        (Dependency.StopImmediately root nd parent a k).parent a2 k2).parent =
      (Dependency.StopImmediately root nd parent a k).parent ∧
     countNotify (Dependency.StopImmediately
        (Dependency.StopImmediately root nd parent a k).root
        (Dependency.StopImmediately root nd parent a k).node
        (Dependency.StopImmediately root nd parent a k).parent a2 k2).trace = 0) :=
  ⟨stop_of_stopped _ _ _ a2 k2 (stop_sets_stopped root nd parent a k),
   stopImmediately_of_stopped _ _ _ a2 k2 (stop_sets_stopped root nd parent a k),
   stop_of_stopped _ _ _ a2 k2 (stopImmediately_sets_stopped root nd parent a k),
   stopImmediately_of_stopped _ _ _ a2 k2
     (stopImmediately_sets_stopped root nd parent a k)⟩

/-- Claim C7: `Wait` is memoized — a second call returns the same channel
id, the same node state and the same allocator state as the first (no
new waiting machinery); the first call records the returned channel in
the node, and the channel's fired-state is the one determined by the
node's unchanged counter, so observers after the fire see the same
already-closed channel. -/
theorem wait_memoized (nd : Node) (k : Nat) :
    (Dependency.Wait (Dependency.Wait nd k).node (Dependency.Wait nd k).nextId).ch =
      (Dependency.Wait nd k).ch ∧
    (Dependency.Wait (Dependency.Wait nd k).node (Dependency.Wait nd k).nextId).node =
      (Dependency.Wait nd k).node ∧
    (Dependency.Wait (Dependency.Wait nd k).node (Dependency.Wait nd k).nextId).nextId =
      (Dependency.Wait nd k).nextId ∧
    (Dependency.Wait nd k).node.waitCh = some (Dependency.Wait nd k).ch ∧
    Node.waitFired (Dependency.Wait nd k).node = Node.waitFired nd := by
  cases h : nd.waitCh <;> simp [Dependency.Wait, h, Node.waitFired]

/-- Claim C8: for every descendant at any depth, reading `AbortContext`
on the Root state left by a first `Root.Abort ctx` yields exactly the
token `ctx` that was stored — all descendants read the single shared
cell of the Root. -/
theorem abortContext_returns_token (nd : Node) (hd : DescendantOfRoot nd)
    (s : RootState) (c : Ctx) (o : Bool) (h : s.aborted = false) :
    Dependency.AbortContext (Root.Abort s c o).root nd = some c := by
  have hc := descendant_cellRef nd hd
  simp [Dependency.AbortContext, hc, Root.Abort, Root.Aborted, h]

/-- Witness for C8: a depth-2 descendant of a fresh Root reads back the
one-minute-deadline token after the abort. -/
theorem abortContext_returns_token_witness :
    DescendantOfRoot node_d2 ∧
    Root.New.aborted = false ∧
    Dependency.AbortContext (Root.Abort Root.New ctx1 false).root node_d2 = some ctx1 :=
  ⟨DescendantOfRoot.node_child node_d1 (DescendantOfRoot.root_child Root.New),
   rfl,
   abortContext_returns_token node_d2
     (DescendantOfRoot.node_child node_d1 (DescendantOfRoot.root_child Root.New))
     Root.New ctx1 false rfl⟩

/-- Claim C9: the once-guarded `requestAbort` trigger fires only the
abort-request channel and at most once — the abort signal, the
AbortContext cell and the counter are untouched, the trace is empty or
the single request-fire event, and a repeated trigger is a strict
no-op on the already-triggered state. -/
theorem requestAbort_fires_only_request (s : RootState) :
    (Root.requestAbort s).1.aborted = s.aborted ∧
    (Root.requestAbort s).1.abortCtx = s.abortCtx ∧
    (Root.requestAbort s).1.counter = s.counter ∧
    (Root.requestAbort s).1.abortRequested = true ∧
    Root.requestAbort (Root.requestAbort s).1 = ((Root.requestAbort s).1, []) ∧
    ((Root.requestAbort s).2 = [] ∨
     (Root.requestAbort s).2 = [Event.fireAbortRequested]) := by
  by_cases h : s.abortRequested <;> simp [Root.requestAbort, h]

/-- Claim C10: `Stop` and `StopImmediately` fire the abort request
exactly when `abortOnError` is a non-nil pointer to a non-nil error:
the request channel afterwards is the old value or-ed with the Go
condition, the condition rejects the nil pointer and the pointer to a
nil error (leaving the Root completely unchanged, no panic), and
accepts every pointer to a non-nil error. -/
theorem stop_requests_abort_iff_nonnil_error (root : RootState) (nd : Node)
    (parent : Nat) (a : Option (Option Nat)) (k : Nat) :
    (Dependency.Stop root nd parent a k).root.abortRequested =
      (root.abortRequested || shouldRequest a) ∧
    (Dependency.StopImmediately root nd parent a k).root.abortRequested =
      (root.abortRequested || shouldRequest a) ∧
    shouldRequest none = false ∧
    shouldRequest (some none) = false ∧
    (∀ e : Nat, shouldRequest (some (some e)) = true) ∧
    (Dependency.Stop root nd parent none k).root = root ∧
    (Dependency.Stop root nd parent (some none) k).root = root ∧
    (Dependency.StopImmediately root nd parent none k).root = root ∧
    (Dependency.StopImmediately root nd parent (some none) k).root = root := by
  refine ⟨?_, ?_, rfl, rfl, fun e => rfl, ?_, ?_, ?_, ?_⟩ <;>
    rcases a with _ | (_ | e) <;> by_cases h : root.abortRequested <;>
      simp [Dependency.Stop, Dependency.StopImmediately, Root.requestAbort,
        shouldRequest, notifyOnce, h]

end Deps
